import Mathlib

/-!
Verification of the PhilGEPS bid-scraper core pipeline (repository
`bidscrapperv2`, directory `src/scraper-service`).

The repository contains two near-duplicate scraper implementations:
* `scraper/philgeps_scraper.py` (scrapling + PostgreSQL via asyncpg), and
* `scraper/philgeps_scraper_playwright.py` (playwright + SQLite).

This file gives a shallow embedding of the pure algorithmic content of the
pipeline: the currency parser, the paginated listing loop, the phase-2
detail-merge loop, the orchestration of `run_daily_scrape`, the
`filter_bids` predicate application of the playwright variant, and the
database reconciliation (`save_to_database` / line-item replacement),
with the database modelled as explicit state (a list of rows per table)
and the network / clock modelled as explicit oracle parameters.

Machine reals (`float`) are modelled by `ℚ`; the inputs appearing in the
claims are exactly representable, so no rounding behaviour is lost on
them.  `datetime` values that are merely stored and compared are
modelled by `Nat`/`Int` timestamps.  Python exceptions are modelled by
`Except String`, and `try/except`-swallowed exceptions by `Option`.
-/

namespace Budget

/-- Embeds `re.sub(r"[^\d.]", "", s)` from `philgeps_scraper.py`
`_parse_budget` (line 523): keep only decimal digits and `.`
(`\d` restricted to ASCII digits, which covers all inputs at issue). -/
def stripNonNumeric (s : String) : String :=
  String.mk (s.data.filter (fun c => c.isDigit || c == '.'))

/-- Numeric value of a list of decimal digit characters. -/
def digitsToNat (cs : List Char) : Nat :=
  cs.foldl (fun a c => 10 * a + (c.toNat - '0'.toNat)) 0

/-- Embeds Python `float(s)` restricted to strings over the alphabet
`[0-9.]` (the only strings `_parse_budget` ever passes to `float`):
it succeeds exactly when the string contains at most one `.` and at
least one digit, and then denotes the usual decimal value.  `none`
models `float` raising `ValueError`. -/
def pyFloatOfCleaned (s : String) : Option ℚ :=
  let cs := s.data
  if cs.all (fun c => c.isDigit || c == '.') && cs.count '.' ≤ 1
      && cs.any (fun c => c.isDigit) then
    let ip := cs.takeWhile (fun c => c != '.')
    let fp := (cs.dropWhile (fun c => c != '.')).drop 1
    some ((digitsToNat ip : ℚ) + (digitsToNat fp : ℚ) / (10 ^ fp.length : ℚ))
  else
    none

/-- Embeds `PhilGEPSScraper._parse_budget` of `philgeps_scraper.py`
(lines 516–526): `None`/empty input gives `None`; otherwise every
non-digit, non-dot character is stripped and the remainder is passed to
`float`, with any exception swallowed to `None`. -/
def parse_budget (budget_str : Option String) : Option ℚ :=
  match budget_str with
  | none => none
  | some s =>
    if s = "" then none
    else
      let cleaned := stripNonNumeric s
      if cleaned = "" then none else pyFloatOfCleaned cleaned

/-- Embeds `PhilGEPSScraper._parse_budget` of
`philgeps_scraper_playwright.py` (lines 297–306): only `₱`, `$`, `,`
and whitespace are removed before calling `float`; exceptions are
swallowed to `None`. -/
def parse_budget_playwright (budget_text : Option String) : Option ℚ :=
  match budget_text with
  | none => none
  | some s =>
    if s = "" then none
    else
      let cleaned := String.mk (s.data.filter
        (fun c => !(c == '₱' || c == '$' || c == ',' || c == ' '
                    || c == '\t' || c == '\n' || c == '\r')))
      pyFloatOfCleaned cleaned

end Budget

namespace Orc

/-- Embeds the `success_rate` expression of `run_daily_scrape`
(`philgeps_scraper.py` line 775):
`((total_operations - total_errors) / total_operations * 100) if total_operations > 0 else 0`. -/
def success_rate_calc (total_operations total_errors : Nat) : ℚ :=
  if total_operations > 0 then
    ((total_operations : ℚ) - (total_errors : ℚ)) / (total_operations : ℚ) * 100
  else 0

end Orc

namespace Py

/-!
Character-list implementations of the Python string primitives the
models need.  The Lean core `String.trim` / `String.startsWith` /
`String.toLower` are implemented over byte positions and do not reduce
in the kernel, so the models use these equivalents, which do.
-/

/-- Python `s.strip()`: drop leading and trailing whitespace. -/
def strip (s : String) : String :=
  String.mk (((s.data.dropWhile Char.isWhitespace).reverse.dropWhile
    Char.isWhitespace).reverse)

/-- The first list is a prefix of the second (character lists). -/
def prefixOfChars : List Char → List Char → Bool
  | [], _ => true
  | _ :: _, [] => false
  | a :: as, b :: bs => a == b && prefixOfChars as bs

/-- Python `s.startswith(p)`. -/
def startsWith (s p : String) : Bool := prefixOfChars p.data s.data

/-- Python `str.lower()`, as a character-wise map (adequate for the
ASCII strings at issue). -/
def lower (s : String) : String := String.mk (s.data.map Char.toLower)

/-- The Python `sub in s` substring test. -/
def strContainsSub (s sub : String) : Bool :=
  (List.range (s.data.length + 1)).any (fun i => prefixOfChars sub.data (s.data.drop i))

end Py

namespace Listing

/-!
Model of `PhilGEPSScraper.scrape_current_opportunities_list` of
`philgeps_scraper.py` (lines 253–375): the paginated phase-1 loop.
The portal is an oracle `source : Nat → Page` giving, for each page
number, the extracted table rows and whether an enabled next-page
control is present; fetching never fails in the model (a deterministic
source), so the `except`-and-break path around row extraction is not
exercised.  The loop is written with an explicit `fuel` bound since the
Python `while True` loop need not terminate on a source that always has
rows and a next page; the theorems show the computed result is
independent of any sufficiently large fuel, i.e. that the loop stops on
the conditions the specification names.  The session-expiry re-login
(lines 290–294) re-fetches the same page and is invisible over a
deterministic source.
-/

/-- One `<tr>` of the listing table, as seen by the row parser:
the reference-number link (its text and `href`, the latter `""` when
the attribute is missing, matching `attrib.get("href", "")`), and the
text of the other cells. -/
structure Row where
  ref_link : Option (String × String)
  title : Option String
  procurement_mode : Option String
  classification : Option String
  agency_name : Option String
  publish_date : Option String
  closing_date : Option String
  status : Option String
deriving Repr, DecidableEq

/-- One fetched listing page: extracted rows and whether
`.pagination li.next:not(.disabled)` exists. -/
structure Page where
  rows : List Row
  hasNext : Bool
deriving Repr, DecidableEq

/-- The bid summary dict built per row (lines 331–347); dates are kept
as the raw cell text here since `_parse_date` only wraps them. -/
structure BidSummary where
  reference_number : String
  title : Option String
  procurement_mode : Option String
  classification : Option String
  agency_name : Option String
  publish_date : Option String
  closing_date : Option String
  status : Option String
  detail_url : String
  source_url : String
deriving Repr, DecidableEq

/-- URL construction (lines 282–285): page 1 uses the bare endpoint,
later pages append the page index and the fixed sort directive. -/
def pageUrl (n : Nat) : String :=
  if n = 1 then
    "https://philgeps.gov.ph/BulletinBoard/view_more_current_oppourtunities"
  else
    "https://philgeps.gov.ph/bulletin-board/view-more-current-oppourtunities?page="
      ++ toString n ++ "&direction=Tenders.tender_start_datetime+desc"

/-- Relative-URL resolution (lines 325–326): a non-empty `href` not
starting with `http` is prefixed with the portal origin; an empty
`href` is falsy and left as is. -/
def resolveUrl (href : String) : String :=
  if href = "" then ""
  else if Py.startsWith href "http" then href
  else "https://philgeps.gov.ph" ++ href

/-- Per-row extraction (lines 315–353): rows without a reference link,
or whose stripped link text is empty, are skipped (`continue`). -/
def extractRow (url : String) (r : Row) : Option BidSummary :=
  match r.ref_link with
  | none => none
  | some (txt, href) =>
    let ref := Py.strip txt
    if ref = "" then none
    else some
      { reference_number := ref
        title := r.title
        procurement_mode := r.procurement_mode
        classification := r.classification
        agency_name := r.agency_name
        publish_date := r.publish_date
        closing_date := r.closing_date
        status := r.status
        detail_url := resolveUrl href
        source_url := url }

/-- `if max_pages and current_page > max_pages:` (line 275): Python
truthiness makes both `None` and `0` impose no cap. -/
def capExceeded (max_pages : Option Nat) (page : Nat) : Bool :=
  match max_pages with
  | none => false
  | some m => if m = 0 then false else decide (page > m)

/-- The `while True` pagination loop, fuel-bounded.  Per iteration:
cap check (break before any fetch), fetch of `pageUrl current`
(the page number is appended to the request log), row extraction with
break on an empty row set, then break unless an enabled next-page
control exists, else continue with `current + 1`.  Returns the
accumulated bids and the log of requested page numbers. -/
def scrapeListAux (source : Nat → Page) (max_pages : Option Nat) :
    Nat → Nat → List BidSummary × List Nat
  | 0, _ => ([], [])
  | fuel + 1, current =>
    if capExceeded max_pages current then ([], [])
    else
      let page := source current
      if page.rows.isEmpty then ([], [current])
      else
        let extracted := page.rows.filterMap (extractRow (pageUrl current))
        if !page.hasNext then (extracted, [current])
        else
          let rest := scrapeListAux source max_pages fuel (current + 1)
          (extracted ++ rest.1, current :: rest.2)

/-- Embeds `scrape_current_opportunities_list`: the loop starts at
page 1. -/
def scrape_current_opportunities_list (source : Nat → Page)
    (max_pages : Option Nat) (fuel : Nat) : List BidSummary × List Nat :=
  scrapeListAux source max_pages fuel 1

end Listing

namespace DB

/-!
Model of the PostgreSQL persistence layer used by
`PhilGEPSScraper.save_to_database` in `philgeps_scraper.py`
(lines 539–688).  The two tables `bid_opportunities` (keyed by
`reference_number`) and `bid_line_items` are modelled as lists of rows;
`NOW()` is an explicit `now : Nat` parameter.  The bids fed to
`save_to_database` always carry a `reference_number` (phase 1 discards
rows without one), so the key is a plain `String` here; the remaining
dict entries are `Option`-valued as in the Python dicts
(`bid.get(...)`), with a missing `line_items` key and an empty
`line_items` list both represented by `[]`, which is faithful because
the source only tests the value for truthiness.
-/

/-- One entry of the `line_items` list of a bid as produced by
`_extract_line_items` (all values are `bid`-dict strings; `Option`
because `save_to_database` reads them with `.get`). -/
structure LineItem where
  item_no : Option String
  unspsc : Option String
  lot_name : Option String
  lot_description : Option String
  quantity : Option String
  unit_of_measure : Option String
deriving Repr, DecidableEq

/-- The bid dict handed to `save_to_database`, restricted to the keys
that function reads.  Dates are opaque stored values (`Option String`),
the budget is `Option ℚ`, `scraped_at` is an optional timestamp
(`bid.get("scraped_at", datetime.now())` supplies `now` when absent). -/
structure Bid where
  reference_number : String
  title : Option String
  procurement_mode : Option String
  classification : Option String
  agency_name : Option String
  publish_date : Option String
  closing_date : Option String
  status : Option String
  approved_budget : Option ℚ
  delivery_period : Option String
  delivery_location : Option String
  contact_person : Option String
  control_number : Option String
  lot_type : Option String
  business_category : Option String
  funding_source : Option String
  description : Option String
  detail_url : Option String
  source_url : Option String
  scraped_at : Option Nat
  line_items : List LineItem
deriving Repr, DecidableEq

/-- A row of the `bid_opportunities` table: the 20 columns written by
the INSERT plus the bookkeeping columns `created_at` (set to `NOW()` on
insert only) and `updated_at` (set to `NOW()` by the conflict UPDATE). -/
structure BidRow where
  reference_number : String
  title : Option String
  procurement_mode : Option String
  classification : Option String
  agency_name : Option String
  publish_date : Option String
  closing_date : Option String
  status : Option String
  approved_budget : Option ℚ
  delivery_period : Option String
  delivery_location : Option String
  contact_person : Option String
  control_number : Option String
  lot_type : Option String
  business_category : Option String
  funding_source : Option String
  description : Option String
  detail_url : Option String
  source_url : Option String
  scraped_at : Nat
  created_at : Nat
  updated_at : Option Nat
deriving Repr, DecidableEq

/-- A row of the `bid_line_items` table (columns of the INSERT at
lines 637–650). -/
structure LineItemRow where
  reference_number : String
  item_no : Option String
  unspsc : Option String
  lot_name : Option String
  lot_description : Option String
  quantity : Option String
  unit_of_measure : Option String
deriving Repr, DecidableEq

/-- The database state: both tables. -/
structure DBState where
  bids : List BidRow
  line_items : List LineItemRow
deriving Repr, DecidableEq

/-- The record field values stored in a `bid_opportunities` row:
everything except the `updated_at` bookkeeping timestamp (which the
conflict UPDATE always overwrites with `NOW()`). -/
def BidRow.fieldValues (r : BidRow) :
    String × Option String × Option String × Option String × Option String
      × Option String × Option String × Option String × Option ℚ
      × Option String × Option String × Option String × Option String
      × Option String × Option String × Option String × Option String
      × Option String × Option String × Nat × Nat :=
  (r.reference_number, r.title, r.procurement_mode, r.classification,
   r.agency_name, r.publish_date, r.closing_date, r.status,
   r.approved_budget, r.delivery_period, r.delivery_location,
   r.contact_person, r.control_number, r.lot_type, r.business_category,
   r.funding_source, r.description, r.detail_url, r.source_url,
   r.scraped_at, r.created_at)

/-- `SELECT reference_number FROM bid_opportunities WHERE reference_number = $1`
(line 565): the existence check `save_to_database` performs per bid. -/
def findBid (rows : List BidRow) (ref : String) : Option BidRow :=
  rows.find? (fun r => r.reference_number == ref)

/-- The row created by the INSERT branch (VALUES list, lines 572–583):
`created_at` is `NOW()`, `updated_at` left NULL. -/
def insertRow (now : Nat) (bid : Bid) : BidRow :=
  { reference_number := bid.reference_number
    title := bid.title
    procurement_mode := bid.procurement_mode
    classification := bid.classification
    agency_name := bid.agency_name
    publish_date := bid.publish_date
    closing_date := bid.closing_date
    status := bid.status
    approved_budget := bid.approved_budget
    delivery_period := bid.delivery_period
    delivery_location := bid.delivery_location
    contact_person := bid.contact_person
    control_number := bid.control_number
    lot_type := bid.lot_type
    business_category := bid.business_category
    funding_source := bid.funding_source
    description := bid.description
    detail_url := bid.detail_url
    source_url := bid.source_url
    scraped_at := bid.scraped_at.getD now
    created_at := now
    updated_at := none }

/-- The `ON CONFLICT (reference_number) DO UPDATE SET` branch
(lines 584–603): every listed column is overwritten from the excluded
row; `source_url`, `scraped_at` and `created_at` are not listed and
keep their stored values; `updated_at` is set to `NOW()`. -/
def updateRow (now : Nat) (r : BidRow) (bid : Bid) : BidRow :=
  { r with
    title := bid.title
    procurement_mode := bid.procurement_mode
    classification := bid.classification
    agency_name := bid.agency_name
    publish_date := bid.publish_date
    closing_date := bid.closing_date
    status := bid.status
    approved_budget := bid.approved_budget
    delivery_period := bid.delivery_period
    delivery_location := bid.delivery_location
    contact_person := bid.contact_person
    control_number := bid.control_number
    lot_type := bid.lot_type
    business_category := bid.business_category
    funding_source := bid.funding_source
    description := bid.description
    detail_url := bid.detail_url
    updated_at := some now }

/-- The whole `INSERT ... ON CONFLICT (reference_number) DO UPDATE`
statement on the `bid_opportunities` table. -/
def upsertBid (now : Nat) (rows : List BidRow) (bid : Bid) : List BidRow :=
  if (findBid rows bid.reference_number).isSome then
    rows.map (fun r =>
      if r.reference_number == bid.reference_number then updateRow now r bid else r)
  else
    rows ++ [insertRow now bid]

/-- The `bid_line_items` row inserted for one line item (lines 637–650). -/
def mkLineItemRow (ref : String) (it : LineItem) : LineItemRow :=
  { reference_number := ref
    item_no := it.item_no
    unspsc := it.unspsc
    lot_name := it.lot_name
    lot_description := it.lot_description
    quantity := it.quantity
    unit_of_measure := it.unit_of_measure }

/-- The line-item block of `save_to_database` (lines 627–650): only when
`bid.get("line_items")` is truthy (a non-empty list), DELETE every
stored line item with this `reference_number`, then INSERT the current
set in order. -/
def replaceLineItems (items : List LineItemRow) (bid : Bid) : List LineItemRow :=
  if bid.line_items.isEmpty then items
  else
    items.filter (fun r => r.reference_number != bid.reference_number)
      ++ bid.line_items.map (mkLineItemRow bid.reference_number)

/-- One iteration of the per-bid loop of `save_to_database`
(lines 562–672): existence check, upsert, line-item replacement;
returns the new state and the `is_new` flag used for the counters. -/
def saveBid (now : Nat) (st : DBState) (bid : Bid) : DBState × Bool :=
  let is_new := (findBid st.bids bid.reference_number).isNone
  let bids' := upsertBid now st.bids bid
  let items' := replaceLineItems st.line_items bid
  (⟨bids', items'⟩, is_new)

/-- The counts dict (keys "new", "updated", "failed") returned of
`save_to_database`. -/
structure SaveCounts where
  new : Nat
  updated : Nat
  failed : Nat
deriving Repr, DecidableEq

/-- The loop of `save_to_database` over the bid list.  The per-bid
`except` branch (which increments `failed`) catches database errors;
the database model itself never fails, so `failed` stays 0, matching
a run in which every statement succeeds. -/
def saveLoop (now : Nat) (st : DBState) (acc : SaveCounts) :
    List Bid → DBState × SaveCounts
  | [] => (st, acc)
  | bid :: rest =>
    let (st', isNew) := saveBid now st bid
    let acc' := if isNew then { acc with new := acc.new + 1 }
                else { acc with updated := acc.updated + 1 }
    saveLoop now st' acc' rest

/-- Embeds `PhilGEPSScraper.save_to_database` (lines 539–688): empty
input returns zero counts without touching the database; otherwise each
bid is upserted in order and counted as new or updated. -/
def save_to_database (now : Nat) (st : DBState) (bids : List Bid) :
    DBState × SaveCounts :=
  if bids.isEmpty then (st, ⟨0, 0, 0⟩)
  else saveLoop now st ⟨0, 0, 0⟩ bids

end DB

namespace PW

/-!
Model of `PhilGEPSScraper.filter_bids` and the filtering step of
`run_daily_scrape` in `philgeps_scraper_playwright.py`.
-/

/-- A phase-1 bid dict of the playwright variant, restricted to the
keys `filter_bids` reads.  Every phase-1 dict carries these keys, with
`None` values possible, so `none` models a `None` value. -/
structure PBid where
  title : Option String
  classification : Option String
  closing_date : Option String
  approved_budget : Option ℚ
deriving Repr, DecidableEq

/-- Python truthiness of an optional string (`None` and `""` are falsy). -/
def strTruthy : Option String → Bool
  | none => false
  | some s => s ≠ ""

/-- The keyword-argument record accepted by `filter_bids` (and passed
as the `filters` dict of `run_daily_scrape`, expanded with `**filters`). -/
structure FilterArgs where
  date_from : Option String := none
  date_to : Option String := none
  classifications : Option (List String) := none
  budget_min : Option ℚ := none
  budget_max : Option ℚ := none
  keywords : Option (List String) := none
deriving Repr, DecidableEq

/-- `if date_from or date_to:` (line 441). -/
def dateActive (date_from date_to : Option String) : Bool :=
  strTruthy date_from || strTruthy date_to

/-- `if classifications:` (line 459): `None` and `[]` are falsy. -/
def classActive : Option (List String) → Bool
  | none => false
  | some l => !l.isEmpty

/-- `if budget_min is not None or budget_max is not None:` (line 468). -/
def budgetActive (budget_min budget_max : Option ℚ) : Bool :=
  budget_min.isSome || budget_max.isSome

/-- `if keywords:` (line 485). -/
def kwActive : Option (List String) → Bool
  | none => false
  | some l => !l.isEmpty

/-- `date_filter` (lines 445–453), with the date parsing of
`self._parse_date` supplied as the function `pd` (an injected
dependency of the model; dates compare as integers). -/
def datePred (pd : Option String → Option Int) (date_from date_to : Option String)
    (b : PBid) : Bool :=
  let date_from_obj := if strTruthy date_from then pd date_from else none
  let date_to_obj := if strTruthy date_to then pd date_to else none
  match pd b.closing_date with
  | none => false
  | some cd =>
    (match date_from_obj with
     | some f => !(decide (cd < f))
     | none => true) &&
    (match date_to_obj with
     | some t => !(decide (cd > t))
     | none => true)

/-- The classification membership test (lines 460–464): records with a
falsy (`None` or empty) classification are excluded; otherwise a
case-insensitive membership test against the supplied set. -/
def classPred (classifications : List String) (b : PBid) : Bool :=
  match b.classification with
  | none => false
  | some c => !(c == "") && (classifications.map Py.lower).contains (Py.lower c)

/-- `budget_filter` (lines 469–477): records without a budget are
excluded once a budget filter is active. -/
def budgetPred (budget_min budget_max : Option ℚ) (b : PBid) : Bool :=
  match b.approved_budget with
  | none => false
  | some v =>
    (match budget_min with
     | some m => !(decide (v < m))
     | none => true) &&
    (match budget_max with
     | some m => !(decide (v > m))
     | none => true)

/-- `keyword_filter` (lines 487–489): case-insensitive substring match
of any keyword against the title.  (Only evaluated on records whose
title is not `None`; on a `None` title the Python code raises, which
`filter_bids` models separately.) -/
def kwPred (keywords : List String) (b : PBid) : Bool :=
  let title := Py.lower (b.title.getD "")
  (keywords.map Py.lower).any (fun k => Py.strContainsSub title k)

/-- Embeds `PhilGEPSScraper.filter_bids`
(`philgeps_scraper_playwright.py` lines 413–494) including its two
exception paths: the summary `print` of the budget filter formats
`budget_max` with `:,.0f` when `budget_min` is falsy, which raises
`TypeError` when `budget_min == 0` and `budget_max is None`; and
`keyword_filter` calls `.lower()` on `bid.get("title", "")`, which
raises `AttributeError` when the title value of a surviving record is
`None`. -/
def filter_bids (pd : Option String → Option Int) (bids : List PBid)
    (date_from date_to : Option String) (classifications : Option (List String))
    (budget_min budget_max : Option ℚ) (keywords : Option (List String)) :
    Except String (List PBid) :=
  let f1 := if dateActive date_from date_to then
      bids.filter (datePred pd date_from date_to) else bids
  let f2 := if classActive classifications then
      f1.filter (classPred (classifications.getD [])) else f1
  if decide (budget_min = some 0) && budget_max.isNone then
    .error "TypeError: unsupported format string passed to NoneType.__format__"
  else
    let f3 := if budgetActive budget_min budget_max then
        f2.filter (budgetPred budget_min budget_max) else f2
    if kwActive keywords then
      if f3.any (fun b => b.title.isNone) then
        .error "AttributeError: NoneType object has no attribute lower"
      else .ok (f3.filter (kwPred (keywords.getD [])))
    else .ok f3

/-- The conjunction of the four filter predicates, each trivially true
when its parameter is absent. -/
def conjPred (pd : Option String → Option Int) (date_from date_to : Option String)
    (classifications : Option (List String)) (budget_min budget_max : Option ℚ)
    (keywords : Option (List String)) (b : PBid) : Bool :=
  (if dateActive date_from date_to then datePred pd date_from date_to b else true) &&
  ((if classActive classifications then classPred (classifications.getD []) b else true) &&
   ((if budgetActive budget_min budget_max then budgetPred budget_min budget_max b else true) &&
    (if kwActive keywords then kwPred (keywords.getD []) b else true)))

/-- Result of the playwright `run_daily_scrape`, restricted to the
observables the filtering claims need: `processed` is the bid list the
phase-2 loop iterates — each of its elements is detail-fetched (when
`fetch_details`) and saved by `save_bid`. -/
structure PWResult where
  success : Bool
  error : Option String
  total_bids : Nat
  filtered_out : Bool
  processed : List PBid
deriving Repr, DecidableEq

/-- Embeds the control flow of `PhilGEPSScraper.run_daily_scrape` of
`philgeps_scraper_playwright.py` (lines 496–633) at the default
`skip_existing=False, incremental=False`, with phase 1 as an oracle
outcome.  After a non-empty phase 1, the supplied filters (if any) are
applied by `filter_bids` before phase 2; an exception escaping
`filter_bids` is caught by the outer handler and returned as
`success=False`.  The phase-2/save loop iterates exactly the
post-filter list, which the model exposes as `processed`. -/
def run_daily_scrape (phase1 : Except String (List PBid))
    (pd : Option String → Option Int) (filters : Option FilterArgs)
    (fetch_details : Bool) : PWResult :=
  match phase1 with
  | .error e => ⟨false, some e, 0, false, []⟩
  | .ok bid_list =>
    if bid_list.isEmpty then ⟨false, some "No bids found in list", 0, false, []⟩
    else
      match (match filters with
             | none => Except.ok bid_list
             | some f => filter_bids pd bid_list f.date_from f.date_to
                 f.classifications f.budget_min f.budget_max f.keywords) with
      | .error e => ⟨false, some e, 0, false, []⟩
      | .ok filtered =>
        if filters.isSome && filtered.isEmpty then ⟨true, none, 0, true, []⟩
        else ⟨true, none, filtered.length, false, filtered⟩

end PW

namespace Orc

/-!
Model of `PhilGEPSScraper.run_daily_scrape` of `philgeps_scraper.py`
(lines 690–879).  Phase 1 (`scrape_current_opportunities_list`), the
per-bid detail fetch (`scrape_bid_detail`) and the database round trip
(`save_to_database`) are network/database effects; they enter the model
as oracle parameters giving their outcomes.  A bid record is a Python
dict, modelled as an association list of string keys and values (the
merge `{**bid, **detail}` follows dict-update order).  Errors recorded
in the stats error tally are modelled as `(type, message)` entries;
and `total_errors` (the sum of the tally) is the number of
recorded entries.
-/

/-- A Python dict with string keys and values, as an association list
without duplicate keys (insertion order preserved). -/
abbrev Dict := List (String × String)

/-- `d[k]` / `d.get(k)`. -/
def dictGet (d : Dict) (k : String) : Option String :=
  (d.find? (fun p => p.1 == k)).map (·.2)

/-- Python `{**a, **b}`: keys of `a` in order with values overridden by
`b`, followed by the keys of `b` not present in `a`, in order. -/
def dictMerge (a b : Dict) : Dict :=
  a.map (fun p => match dictGet b p.1 with
                  | some v => (p.1, v)
                  | none => p)
    ++ b.filter (fun q => (dictGet a q.1).isNone)

/-- One recorded error: error type and message. -/
abbrev ErrEntry := String × String

/-- Outcome of `await self.scrape_bid_detail(...)` for one bid:
`scrape_bid_detail` catches its own exceptions and returns `None`
(modelled `noDetail`), and the surrounding loop additionally catches
any exception raised while processing the bid (`raised`). -/
inductive DetailOutcome where
  | ok (detail : Dict)
  | noDetail
  | raised (msg : String)

/-- True of the two failing detail outcomes (no detail returned, or the
iteration raised). -/
def DetailOutcome.isFailure : DetailOutcome → Bool
  | .ok _ => false
  | .noDetail => true
  | .raised _ => true

/-- One iteration of the phase-2 loop (lines 736–757): on a successful
detail fetch the merged dict `{**bid, **detail}` is appended; when the
fetch returns `None` the unchanged summary dict is appended and a
`DetailFetchError` is recorded; when the iteration raises the unchanged
summary dict is appended and a `ProcessingError` is recorded. -/
def processBid (detailOf : Dict → DetailOutcome) (bid : Dict) : Dict × List ErrEntry :=
  match detailOf bid with
  | .ok detail => (dictMerge bid detail, [])
  | .noDetail =>
    (bid, [("DetailFetchError",
            "Failed to fetch details for " ++ (dictGet bid "reference_number").getD "")])
  | .raised m =>
    (bid, [("ProcessingError",
            "Error processing " ++ (dictGet bid "reference_number").getD "" ++ ": " ++ m)])

/-- The phase-2 loop over the whole bid list: the detailed list and the
errors recorded, in order. -/
def phase2 (detailOf : Dict → DetailOutcome) (bids : List Dict) :
    List Dict × List ErrEntry :=
  (bids.map (fun b => (processBid detailOf b).1),
   bids.flatMap (fun b => (processBid detailOf b).2))

/-- The result dict of `run_daily_scrape`: the success branch populates
all fields (lines 845–857); the failure branches return only
`success=False` and `error` (lines 725–729 and 875–879). -/
structure RunResult where
  success : Bool
  error : Option String
  total_bids : Option Nat
  detailed_bids : Option Nat
  new_bids : Option Nat
  updated_bids : Option Nat
  failed_bids : Option Nat
  total_errors : Option Nat
  success_rate : Option ℚ
deriving Repr, DecidableEq

/-- The failure dicts (success False plus the error message). -/
def failResult (e : String) : RunResult :=
  ⟨false, some e, none, none, none, none, none, none, none⟩

/-- Embeds `PhilGEPSScraper.run_daily_scrape` of `philgeps_scraper.py`
(lines 690–879).  Oracles: `phase1` is the outcome of
`scrape_current_opportunities_list` together with the errors it
recorded; `detailOf` the per-bid detail outcome; `save` the outcome of
`save_to_database` (its `await asyncpg.connect` can raise, which
escapes to the outer handler) with the `DatabaseError` entries it
recorded.  `filters` is accepted but — in this variant — used only for
the `filters_applied` field of the generated report (line 795); it
never restricts the record set.  Report generation is wrapped in its
own `try/except` and does not affect the returned dict beyond the
`report_files` paths, which are not modelled.  The second component of
the result is the final `self.stats` error list. -/
def run_daily_scrape
    (phase1 : Except String (List Dict × List ErrEntry))
    (detailOf : Dict → DetailOutcome)
    (save : List Dict → Except String (DB.SaveCounts × List ErrEntry))
    (filters : Option PW.FilterArgs)
    (fetch_details : Bool) : RunResult × List ErrEntry :=
  match phase1 with
  | .error e => (failResult e, [("CriticalError", e)])
  | .ok p1 =>
    let bid_list := p1.1
    if bid_list.isEmpty then (failResult "No bids found", p1.2)
    else
      let db := if fetch_details then phase2 detailOf bid_list else (bid_list, [])
      match save db.1 with
      | .error e => (failResult e, p1.2 ++ db.2 ++ [("CriticalError", e)])
      | .ok res =>
        let errs := p1.2 ++ db.2 ++ res.2
        ({ success := true
           error := none
           total_bids := some bid_list.length
           detailed_bids := some db.1.length
           new_bids := some res.1.new
           updated_bids := some res.1.updated
           failed_bids := some res.1.failed
           total_errors := some errs.length
           success_rate := some (success_rate_calc bid_list.length errs.length) }, errs)

end Orc

namespace Demo

/-!
Concrete inputs used by the instances, witnesses and counterexamples of
the theorems below.
-/

/-- A listing-table row with a reference link, for the pagination demo. -/
def listRow (i : Nat) : Listing.Row :=
  { ref_link := some ("REF-" ++ toString i, "https://philgeps.gov.ph/bid/" ++ toString i)
    title := some ("Bid " ++ toString i)
    procurement_mode := none
    classification := none
    agency_name := none
    publish_date := none
    closing_date := none
    status := none }

/-- A fake portal with two pages of rows followed by an empty page:
page 1 carries rows 1–2, page 2 carries row 3, every later page has no
rows.  Both populated pages advertise a next page. -/
def listSource : Nat → Listing.Page :=
  fun n =>
    if n = 1 then ⟨[listRow 1, listRow 2], true⟩
    else if n = 2 then ⟨[listRow 3], true⟩
    else ⟨[], false⟩

/-- The summary record the indexer extracts from `listRow i` on page
`page`. -/
def listBid (i page : Nat) : Listing.BidSummary :=
  { reference_number := "REF-" ++ toString i
    title := some ("Bid " ++ toString i)
    procurement_mode := none
    classification := none
    agency_name := none
    publish_date := none
    closing_date := none
    status := none
    detail_url := "https://philgeps.gov.ph/bid/" ++ toString i
    source_url := Listing.pageUrl page }

/-- The three records of the filter-conjunction instance of the spec. -/
def fBid1 : PW.PBid :=
  { title := none, classification := some "Goods"
    closing_date := none, approved_budget := some 50000 }

/-- Second record: budget 500000, classification Goods. -/
def fBid2 : PW.PBid :=
  { title := none, classification := some "Goods"
    closing_date := none, approved_budget := some 500000 }

/-- Third record: budget 500000, classification Works. -/
def fBid3 : PW.PBid :=
  { title := none, classification := some "Works"
    closing_date := none, approved_budget := some 500000 }

/-- A phase-1 record whose classification satisfies the demo filter. -/
def cexBidGoods : Orc.Dict :=
  [("reference_number", "CEX-1"), ("classification", "Goods"),
   ("detail_url", "https://philgeps.gov.ph/bid/cex1")]

/-- A phase-1 record whose classification fails the demo filter. -/
def cexBidWorks : Orc.Dict :=
  [("reference_number", "CEX-2"), ("classification", "Works"),
   ("detail_url", "https://philgeps.gov.ph/bid/cex2")]

/-- A filter spec keeping only classification Goods. -/
def cexFilters : PW.FilterArgs := { classifications := some ["Goods"] }

/-- A save oracle in which every record is inserted as new and no
database error happens: it reports as `new` exactly the number of
records handed to `save_to_database`. -/
def countSave : List Orc.Dict → Except String (DB.SaveCounts × List Orc.ErrEntry) :=
  fun l => .ok (⟨l.length, 0, 0⟩, [])

/-- A line item for the persistence demos. -/
def dbItem (i : Nat) : DB.LineItem :=
  { item_no := some (toString i), unspsc := none, lot_name := some ("Lot " ++ toString i)
    lot_description := none, quantity := some "1", unit_of_measure := some "pc" }

/-- A bid record for the persistence demos (two line items). -/
def dbBid : DB.Bid :=
  { reference_number := "DB-1"
    title := some "Supply of goods"
    procurement_mode := some "Public Bidding"
    classification := some "Goods"
    agency_name := none
    publish_date := none
    closing_date := none
    status := some "Open"
    approved_budget := some 100000
    delivery_period := none
    delivery_location := none
    contact_person := none
    control_number := none
    lot_type := none
    business_category := none
    funding_source := none
    description := none
    detail_url := some "https://philgeps.gov.ph/bid/db1"
    source_url := some "https://philgeps.gov.ph/list"
    scraped_at := some 100
    line_items := [dbItem 1, dbItem 2] }

/-- The same record carrying three line items. -/
def dbBid3 : DB.Bid := { dbBid with line_items := [dbItem 1, dbItem 2, dbItem 3] }

/-- The same record carrying one line item. -/
def dbBid1 : DB.Bid := { dbBid with line_items := [dbItem 9] }

/-- The same record with no line items. -/
def dbBidNoItems : DB.Bid := { dbBid with line_items := [] }

/-- A phase-1 summary dict for the orchestration demos. -/
def wBid : Orc.Dict :=
  [("reference_number", "W-1"), ("title", "Water pumps"),
   ("detail_url", "https://philgeps.gov.ph/bid/w1")]

end Demo

/-!
## Theorems
-/

/-- Any `parse_budget` call factors through the stripped string. -/
theorem parse_budget_eq_cleaned (s : String) :
    Budget.parse_budget (some s)
      = (if Budget.stripNonNumeric s = "" then none
         else Budget.pyFloatOfCleaned (Budget.stripNonNumeric s)) := by
  by_cases h : s = ""
  · subst h
    have hmt : Budget.stripNonNumeric "" = "" := by decide
    simp [Budget.parse_budget, hmt]
  · simp [Budget.parse_budget, h]

/-- Claim C8: the budget parser (`_parse_budget` of
`philgeps_scraper.py`) strips every non-digit, non-decimal-point
character and parses the remainder as a decimal number — its result
depends only on the stripped remainder; every input without a digit
(in particular one containing only separators or currency symbols,
such as "₱ ,") yields `none`; every input whose cleaned form `float`
rejects yields `none`; and the embedding is a total function, i.e. the
parser never raises. -/
theorem parse_budget_strips_and_never_raises :
    (∀ s t : String, Budget.stripNonNumeric s = Budget.stripNonNumeric t →
       Budget.parse_budget (some s) = Budget.parse_budget (some t))
    ∧ (∀ s : String, (∀ c ∈ s.data, c.isDigit = false) →
       Budget.parse_budget (some s) = none)
    ∧ (∀ s : String, Budget.pyFloatOfCleaned (Budget.stripNonNumeric s) = none →
       Budget.parse_budget (some s) = none)
    ∧ Budget.parse_budget (some "₱ ,") = none
    ∧ Budget.parse_budget (some "₱1,234.50") = some (2469 / 2) := by
  have hval : Budget.parse_budget (some "₱1,234.50")
      = some ((Budget.digitsToNat ['1', '2', '3', '4'] : ℚ)
          + (Budget.digitsToNat ['5', '0'] : ℚ) / (10 ^ (2 : Nat) : ℚ)) := rfl
  have hpos : Budget.parse_budget (some "₱1,234.50") = some (2469 / 2) := by
    rw [hval,
      show Budget.digitsToNat ['1', '2', '3', '4'] = 1234 from by decide,
      show Budget.digitsToNat ['5', '0'] = 50 from by decide]
    norm_num
  refine ⟨?_, ?_, ?_, by decide, hpos⟩
  · intro s t h
    rw [parse_budget_eq_cleaned, parse_budget_eq_cleaned, h]
  · intro s h
    rw [parse_budget_eq_cleaned]
    split
    · rfl
    · have hany : ((Budget.stripNonNumeric s).data.any (fun c => c.isDigit)) = false := by
        rw [Bool.eq_false_iff]
        intro hx
        rw [List.any_eq_true] at hx
        obtain ⟨c, hc, hd⟩ := hx
        have hcs : c ∈ s.data := by
          have : (Budget.stripNonNumeric s).data
              = s.data.filter (fun c => c.isDigit || c == '.') := rfl
          rw [this] at hc
          exact List.mem_of_mem_filter hc
        rw [h c hcs] at hd
        exact Bool.false_ne_true hd
      simp only [Budget.pyFloatOfCleaned, hany, Bool.and_false, Bool.false_eq_true,
        if_false]
  · intro s h
    rw [parse_budget_eq_cleaned]
    split
    · rfl
    · exact h

/-- Witness for the C8 theorem at the concrete input "₱ ,". -/
theorem parse_budget_strips_witness :
    (∀ c ∈ "₱ ,".data, c.isDigit = false) ∧ Budget.parse_budget (some "₱ ,") = none :=
  ⟨by decide, parse_budget_strips_and_never_raises.2.1 "₱ ," (by decide)⟩

/-- Claim C5: `successRate` is
`(totalOperations - totalErrors) / totalOperations` as a percentage
with `totalOperations = len(bid_list)`: it is 80 at `(10, 2)`, it is 0
(by the guard, not by dividing) at `totalOperations = 0`, and the
success path of `run_daily_scrape` reports exactly
`success_rate_calc (len bid_list) total_errors` where `total_errors`
counts every recorded error. -/
theorem success_rate_contract :
    Orc.success_rate_calc 10 2 = 80
    ∧ (∀ e : Nat, Orc.success_rate_calc 0 e = 0)
    ∧ (∀ ops errs : Nat, 0 < ops →
        Orc.success_rate_calc ops errs = ((ops : ℚ) - (errs : ℚ)) / (ops : ℚ) * 100)
    ∧ (∀ (bids : List Orc.Dict) (errs1 : List Orc.ErrEntry) detailOf save
         (counts : DB.SaveCounts) (errs3 : List Orc.ErrEntry)
         (filters : Option PW.FilterArgs) (fd : Bool),
        bids ≠ [] →
        save (if fd then (Orc.phase2 detailOf bids).1 else bids)
          = Except.ok (counts, errs3) →
        (Orc.run_daily_scrape (Except.ok (bids, errs1)) detailOf save filters fd).1.success_rate
          = some (Orc.success_rate_calc bids.length
              (errs1 ++ ((if fd then (Orc.phase2 detailOf bids).2 else []) ++ errs3)).length)) := by
  refine ⟨by norm_num [Orc.success_rate_calc], ?_, ?_, ?_⟩
  · intro e
    simp [Orc.success_rate_calc]
  · intro ops errs h
    simp [Orc.success_rate_calc, h]
  · intro bids errs1 detailOf save counts errs3 filters fd hne hsave
    have hempty : bids.isEmpty = false := by
      simp [List.isEmpty_iff, hne]
    cases fd <;> simp at hsave <;>
      simp [Orc.run_daily_scrape, hempty, hsave, List.length_append, Nat.add_assoc]

/-- Witness for the C5 theorem at `totalOperations = 10`,
`totalErrors = 2`. -/
theorem success_rate_contract_witness :
    (0 < 10) ∧ Orc.success_rate_calc 10 2 = ((10 : ℚ) - (2 : ℚ)) / (10 : ℚ) * 100 :=
  ⟨by norm_num, success_rate_contract.2.2.1 10 2 (by norm_num)⟩

/-- Claim C4: `run_daily_scrape` is a total function into result dicts
(it never propagates an exception): an empty phase 1 yields a returned
`success=False` result with error message "No bids found"; a phase-1
exception yields `success=False` carrying its message; and a raising
database save (the `asyncpg.connect` call sits outside the per-bid
`try`) likewise yields `success=False` carrying the message. -/
theorem run_daily_scrape_never_throws :
    (∀ detailOf save (filters : Option PW.FilterArgs) (fd : Bool)
       (errs1 : List Orc.ErrEntry),
        (Orc.run_daily_scrape (Except.ok ([], errs1)) detailOf save filters fd).1
          = Orc.failResult "No bids found")
    ∧ (∀ (e : String) detailOf save (filters : Option PW.FilterArgs) (fd : Bool),
        (Orc.run_daily_scrape (Except.error e) detailOf save filters fd).1
          = Orc.failResult e)
    ∧ (∀ (bids : List Orc.Dict) (errs1 : List Orc.ErrEntry) detailOf save
         (filters : Option PW.FilterArgs) (fd : Bool) (e : String),
        bids ≠ [] →
        save (if fd then (Orc.phase2 detailOf bids).1 else bids) = Except.error e →
        (Orc.run_daily_scrape (Except.ok (bids, errs1)) detailOf save filters fd).1
          = Orc.failResult e)
    ∧ (∀ e : String,
        (Orc.failResult e).success = false ∧ (Orc.failResult e).error = some e) := by
  refine ⟨?_, ?_, ?_, ?_⟩
  · intro detailOf save filters fd errs1
    simp [Orc.run_daily_scrape]
  · intro e detailOf save filters fd
    simp [Orc.run_daily_scrape]
  · intro bids errs1 detailOf save filters fd e hne hsave
    have hempty : bids.isEmpty = false := by
      simp [List.isEmpty_iff, hne]
    cases fd <;> simp at hsave <;>
      simp [Orc.run_daily_scrape, hempty, hsave]
  · intro e
    exact ⟨rfl, rfl⟩

/-- Witness for the C4 theorem: a raising save on a one-record list. -/
theorem run_daily_scrape_never_throws_witness :
    ([Demo.wBid] ≠ ([] : List Orc.Dict))
    ∧ (Orc.run_daily_scrape (Except.ok ([Demo.wBid], []))
        (fun _ => Orc.DetailOutcome.noDetail)
        (fun _ => Except.error "connection refused") none true).1
      = Orc.failResult "connection refused" :=
  ⟨by simp, run_daily_scrape_never_throws.2.2.1 [Demo.wBid] []
    (fun _ => Orc.DetailOutcome.noDetail) (fun _ => Except.error "connection refused")
    none true "connection refused" (by simp) rfl⟩

/-- Lookup over an appended table whose first part has no match. -/
theorem findBid_append (rows extra : List DB.BidRow) (ref : String)
    (h : DB.findBid rows ref = none) :
    DB.findBid (rows ++ extra) ref = DB.findBid extra ref := by
  unfold DB.findBid at h ⊢
  rw [List.find?_append, h]
  simp

/-- Repeating the delete-then-insert replacement with the same record
changes nothing the second time. -/
theorem replaceLineItems_idem (items : List DB.LineItemRow) (bid : DB.Bid) :
    DB.replaceLineItems (DB.replaceLineItems items bid) bid
      = DB.replaceLineItems items bid := by
  unfold DB.replaceLineItems
  cases hbe : bid.line_items.isEmpty
  · simp only [Bool.false_eq_true, if_false]
    rw [List.filter_append, List.filter_filter]
    have h1 : items.filter (fun a =>
          (a.reference_number != bid.reference_number)
            && (a.reference_number != bid.reference_number))
        = items.filter (fun a => a.reference_number != bid.reference_number) := by
      apply List.filter_congr
      intro a _
      simp [Bool.and_self]
    have h2 : (bid.line_items.map (DB.mkLineItemRow bid.reference_number)).filter
        (fun r => r.reference_number != bid.reference_number) = [] := by
      simp only [List.filter_eq_nil_iff]
      intro r hr
      rw [List.mem_map] at hr
      obtain ⟨it, _, rfl⟩ := hr
      simp [DB.mkLineItemRow]
    rw [h1, h2]
    simp
  · simp [hbe]

/-- Claim C1: persisting the same bid record twice with identical field
values, starting from a state where its key is absent, reports
`new=1, updated=0` on the first call and `new=0, updated=1` on the
second, and the stored record field values (every column except the
`updated_at` bookkeeping timestamp, which the conflict UPDATE sets to
`NOW()`) are unchanged by the second call, as is the line-items table. -/
theorem save_twice_idempotent
    (now1 now2 : Nat) (st : DB.DBState) (bid : DB.Bid)
    (h : DB.findBid st.bids bid.reference_number = none) :
    (DB.save_to_database now1 st [bid]).2 = ⟨1, 0, 0⟩
    ∧ (DB.save_to_database now2 (DB.save_to_database now1 st [bid]).1 [bid]).2 = ⟨0, 1, 0⟩
    ∧ (DB.save_to_database now2 (DB.save_to_database now1 st [bid]).1 [bid]).1.bids.map
          DB.BidRow.fieldValues
        = (DB.save_to_database now1 st [bid]).1.bids.map DB.BidRow.fieldValues
    ∧ (DB.save_to_database now2 (DB.save_to_database now1 st [bid]).1 [bid]).1.line_items
        = (DB.save_to_database now1 st [bid]).1.line_items := by
  have h1 : DB.save_to_database now1 st [bid]
      = (⟨st.bids ++ [DB.insertRow now1 bid], DB.replaceLineItems st.line_items bid⟩,
         ⟨1, 0, 0⟩) := by
    simp [DB.save_to_database, DB.saveLoop, DB.saveBid, DB.upsertBid, h]
  have hfind2 : DB.findBid (st.bids ++ [DB.insertRow now1 bid]) bid.reference_number
      = some (DB.insertRow now1 bid) := by
    rw [findBid_append _ _ _ h]
    simp [DB.findBid, DB.insertRow]
  have h2 : DB.save_to_database now2
      (⟨st.bids ++ [DB.insertRow now1 bid],
        DB.replaceLineItems st.line_items bid⟩ : DB.DBState) [bid]
      = (⟨(st.bids ++ [DB.insertRow now1 bid]).map
            (fun r => if r.reference_number == bid.reference_number
                      then DB.updateRow now2 r bid else r),
          DB.replaceLineItems (DB.replaceLineItems st.line_items bid) bid⟩,
         ⟨0, 1, 0⟩) := by
    simp [DB.save_to_database, DB.saveLoop, DB.saveBid, DB.upsertBid, hfind2]
  have hnomatch : ∀ r ∈ st.bids, (r.reference_number == bid.reference_number) = false := by
    unfold DB.findBid at h
    rw [List.find?_eq_none] at h
    intro r hr
    simpa using h r hr
  refine ⟨by rw [h1], by rw [h1, h2], ?_, ?_⟩
  · rw [h1, h2]
    show ((st.bids ++ [DB.insertRow now1 bid]).map _).map _ = _
    rw [List.map_map]
    apply List.map_congr_left
    intro r hr
    rcases List.mem_append.mp hr with hin | hin
    · simp [Function.comp, hnomatch r hin]
    · rw [List.mem_singleton] at hin
      subst hin
      simp [Function.comp, DB.updateRow, DB.insertRow, DB.BidRow.fieldValues]
  · rw [h1, h2]
    exact replaceLineItems_idem st.line_items bid

/-- Witness for the C1 theorem: the demo record saved twice into an
initially empty database. -/
theorem save_twice_idempotent_witness :
    DB.findBid (([] : List DB.BidRow)) Demo.dbBid.reference_number = none
    ∧ (DB.save_to_database 5 ⟨[], []⟩ [Demo.dbBid]).2 = ⟨1, 0, 0⟩ :=
  ⟨rfl, (save_twice_idempotent 5 7 ⟨[], []⟩ Demo.dbBid rfl).1⟩

/-- Claim C2: every persistence of a record carrying line items first
deletes all stored line items of its reference number and then inserts
the current set; in particular saving a record with 3 line items and
then the same reference with 1 line item leaves exactly 1 stored line
item for that reference number. -/
theorem line_items_full_replace :
    (∀ (now : Nat) (st : DB.DBState) (bid : DB.Bid), bid.line_items ≠ [] →
        (DB.saveBid now st bid).1.line_items
          = st.line_items.filter (fun r => r.reference_number != bid.reference_number)
            ++ bid.line_items.map (DB.mkLineItemRow bid.reference_number))
    ∧ (∀ (now1 now2 : Nat) (st : DB.DBState) (b3 b1 : DB.Bid),
        b3.reference_number = b1.reference_number →
        b3.line_items.length = 3 →
        b1.line_items.length = 1 →
        ((DB.save_to_database now2 (DB.save_to_database now1 st [b3]).1 [b1]).1.line_items.filter
            (fun r => r.reference_number == b1.reference_number)).length = 1) := by
  constructor
  · intro now st bid hne
    have hbe : bid.line_items.isEmpty = false := by
      simp [List.isEmpty_iff, hne]
    simp [DB.saveBid, DB.replaceLineItems, hbe]
  · intro now1 now2 st b3 b1 _ _ h1len
    obtain ⟨a, ha⟩ := List.length_eq_one.mp h1len
    have hbe : b1.line_items.isEmpty = false := by
      simp [List.isEmpty_iff, ha]
    have hsave : (DB.save_to_database now2 (DB.save_to_database now1 st [b3]).1 [b1]).1.line_items
        = ((DB.save_to_database now1 st [b3]).1.line_items.filter
             (fun r => r.reference_number != b1.reference_number))
          ++ b1.line_items.map (DB.mkLineItemRow b1.reference_number) := by
      simp [DB.save_to_database, DB.saveLoop, DB.saveBid, DB.replaceLineItems, hbe]
    rw [hsave, ha, List.filter_append, List.filter_filter]
    have hnil : (DB.save_to_database now1 st [b3]).1.line_items.filter
        (fun r => (r.reference_number == b1.reference_number)
          && (r.reference_number != b1.reference_number)) = [] := by
      simp only [List.filter_eq_nil_iff]
      intro r _
      cases hq : (r.reference_number == b1.reference_number) <;> simp [bne, hq]
    rw [hnil]
    simp [DB.mkLineItemRow]

/-- Witness for the C2 theorem: three line items then one, on an empty
initial state. -/
theorem line_items_full_replace_witness :
    Demo.dbBid3.reference_number = Demo.dbBid1.reference_number
    ∧ Demo.dbBid3.line_items.length = 3
    ∧ Demo.dbBid1.line_items.length = 1
    ∧ ((DB.save_to_database 2 (DB.save_to_database 1 ⟨[], []⟩ [Demo.dbBid3]).1
          [Demo.dbBid1]).1.line_items.filter
        (fun r => r.reference_number == Demo.dbBid1.reference_number)).length = 1 :=
  ⟨rfl, rfl, rfl,
    line_items_full_replace.2 1 2 ⟨[], []⟩ Demo.dbBid3 Demo.dbBid1 rfl rfl rfl⟩

/-- Claim C10: persisting a bid record whose line-item list is empty
(or whose dict lacks the key, which the truthiness test treats the same
way) leaves the stored line items untouched: the delete-then-insert
replacement only runs for a non-empty line-item list. -/
theorem empty_line_items_no_delete :
    (∀ (now : Nat) (st : DB.DBState) (bid : DB.Bid), bid.line_items = [] →
        (DB.saveBid now st bid).1.line_items = st.line_items)
    ∧ (∀ (now : Nat) (st : DB.DBState) (bid : DB.Bid), bid.line_items = [] →
        (DB.save_to_database now st [bid]).1.line_items = st.line_items) := by
  constructor
  · intro now st bid h
    simp [DB.saveBid, DB.replaceLineItems, h]
  · intro now st bid h
    simp [DB.save_to_database, DB.saveLoop, DB.saveBid, DB.replaceLineItems, h]

/-- Witness for the C10 theorem: an update without line items over a
state holding two stored line items. -/
theorem empty_line_items_no_delete_witness :
    Demo.dbBidNoItems.line_items = []
    ∧ (DB.save_to_database 9
        ⟨[], [DB.mkLineItemRow "DB-1" (Demo.dbItem 1), DB.mkLineItemRow "DB-1" (Demo.dbItem 2)]⟩
        [Demo.dbBidNoItems]).1.line_items
      = [DB.mkLineItemRow "DB-1" (Demo.dbItem 1), DB.mkLineItemRow "DB-1" (Demo.dbItem 2)] :=
  ⟨rfl, empty_line_items_no_delete.2 9
    ⟨[], [DB.mkLineItemRow "DB-1" (Demo.dbItem 1), DB.mkLineItemRow "DB-1" (Demo.dbItem 2)]⟩
    Demo.dbBidNoItems rfl⟩

/-- Invariant of the pagination loop: a page number is requested only
if it is at least the start page, the cap does not exclude it, and
every earlier page from the start on had rows and an enabled next-page
control. -/
theorem scrapeListAux_requested (source : Nat → Listing.Page) (mp : Option Nat) :
    ∀ (fuel start k : Nat), k ∈ (Listing.scrapeListAux source mp fuel start).2 →
      start ≤ k ∧ Listing.capExceeded mp k = false
        ∧ ∀ i, start ≤ i → i < k → (source i).rows ≠ [] ∧ (source i).hasNext = true := by
  intro fuel
  induction fuel with
  | zero =>
    intro start k hk
    simp [Listing.scrapeListAux] at hk
  | succ n ih =>
    intro start k hk
    simp only [Listing.scrapeListAux] at hk
    by_cases hcap : Listing.capExceeded mp start = true
    · simp [hcap] at hk
    · rw [Bool.not_eq_true] at hcap
      simp only [hcap, Bool.false_eq_true, if_false] at hk
      cases hrows : (source start).rows.isEmpty with
      | true =>
        simp only [hrows, if_true] at hk
        rw [List.mem_singleton] at hk
        subst hk
        exact ⟨Nat.le_refl _, hcap,
          fun i h1 h2 => absurd (Nat.lt_of_le_of_lt h1 h2) (Nat.lt_irrefl _)⟩
      | false =>
        simp only [hrows, Bool.false_eq_true, if_false] at hk
        cases hnext : (source start).hasNext with
        | false =>
          simp only [hnext, Bool.not_false, if_true] at hk
          rw [List.mem_singleton] at hk
          subst hk
          exact ⟨Nat.le_refl _, hcap,
            fun i h1 h2 => absurd (Nat.lt_of_le_of_lt h1 h2) (Nat.lt_irrefl _)⟩
        | true =>
          simp only [hnext, Bool.not_true, Bool.false_eq_true, if_false] at hk
          rw [List.mem_cons] at hk
          cases hk with
          | inl hk =>
            subst hk
            exact ⟨Nat.le_refl _, hcap,
              fun i h1 h2 => absurd (Nat.lt_of_le_of_lt h1 h2) (Nat.lt_irrefl _)⟩
          | inr hk =>
            obtain ⟨h1, h2, h3⟩ := ih (start + 1) k hk
            refine ⟨Nat.le_trans (Nat.le_succ _) h1, h2, ?_⟩
            intro i hi1 hi2
            rcases Nat.eq_or_lt_of_le hi1 with heq | hlt
            · subst heq
              exact ⟨by simpa [List.isEmpty_iff] using hrows, hnext⟩
            · exact h3 i hlt hi2

/-- Claim C9: the listing indexer stops at a zero-row page, at a page
without an enabled next-page control, and at the maxPages cap — every
requested page number is bounded by each of them, so in particular no
request is ever issued for a page beyond a page that returned zero
rows — and, on the fake source with two pages of rows followed by an
empty page, it returns exactly the rows of pages 1–2 and requests
exactly pages 1, 2, 3, for every fuel bound of at least 3 (the loop
terminates there; no page beyond the detected empty one is requested). -/
theorem pagination_terminates :
    (∀ (source : Nat → Listing.Page) (mp : Option Nat) (fuel j k : Nat),
        1 ≤ j → (source j).rows = [] →
        k ∈ (Listing.scrape_current_opportunities_list source mp fuel).2 → k ≤ j)
    ∧ (∀ (source : Nat → Listing.Page) (mp : Option Nat) (fuel j k : Nat),
        1 ≤ j → (source j).hasNext = false →
        k ∈ (Listing.scrape_current_opportunities_list source mp fuel).2 → k ≤ j)
    ∧ (∀ (source : Nat → Listing.Page) (m fuel k : Nat),
        m ≠ 0 →
        k ∈ (Listing.scrape_current_opportunities_list source (some m) fuel).2 → k ≤ m)
    ∧ (∀ f : Nat, Listing.scrape_current_opportunities_list Demo.listSource none (f + 3)
        = ([Demo.listBid 1 1, Demo.listBid 2 1, Demo.listBid 3 2], [1, 2, 3])) := by
  refine ⟨?_, ?_, ?_, fun f => rfl⟩
  · intro source mp fuel j k hj hrows hk
    obtain ⟨_, _, h3⟩ := scrapeListAux_requested source mp fuel 1 k hk
    by_contra hgt
    rw [Nat.not_le] at hgt
    exact (h3 j hj hgt).1 hrows
  · intro source mp fuel j k hj hnext hk
    obtain ⟨_, _, h3⟩ := scrapeListAux_requested source mp fuel 1 k hk
    by_contra hgt
    rw [Nat.not_le] at hgt
    rw [(h3 j hj hgt).2] at hnext
    exact absurd hnext (by simp)
  · intro source m fuel k hm hk
    obtain ⟨_, h2, _⟩ := scrapeListAux_requested source (some m) fuel 1 k hk
    unfold Listing.capExceeded at h2
    simp only [if_neg hm] at h2
    have := of_decide_eq_false h2
    exact Nat.le_of_not_lt this

/-- Witness for the C9 theorem at the fake two-pages-then-empty source:
page 3 has zero rows, page 3 is requested, and every requested page is
bounded by it. -/
theorem pagination_terminates_witness :
    (Demo.listSource 3).rows = [] ∧ (3 : Nat) ≤ 3 :=
  ⟨rfl, pagination_terminates.1 Demo.listSource none 5 3 3 (by decide) rfl (by decide)⟩

/-- Each filtering stage as a single conditional filter. -/
theorem filterStage (l : List PW.PBid) (active : Bool) (p : PW.PBid → Bool) :
    (if active then l.filter p else l)
      = l.filter (fun b => if active then p b else true) := by
  cases active <;> simp

/-- The sequential filters of `filter_bids` compose to one conjunctive
predicate whenever no exception path fires. -/
theorem filter_bids_eq_filter_conj
    (pd : Option String → Option Int) (bids : List PW.PBid)
    (df dt : Option String) (cls : Option (List String))
    (bmin bmax : Option ℚ) (kw : Option (List String))
    (hfmt : ¬(bmin = some 0 ∧ bmax = none))
    (htitle : PW.kwActive kw = true → ∀ b ∈ bids, b.title ≠ none) :
    PW.filter_bids pd bids df dt cls bmin bmax kw
      = Except.ok (bids.filter (PW.conjPred pd df dt cls bmin bmax kw)) := by
  have hchk : (decide (bmin = some 0) && bmax.isNone) = false := by
    by_cases h0 : bmin = some 0
    · cases hbm : bmax with
      | none => exact absurd ⟨h0, hbm⟩ hfmt
      | some x => simp [hbm]
    · simp [h0]
  cases hkw : PW.kwActive kw with
  | false =>
    simp only [PW.filter_bids, hchk, hkw, Bool.false_eq_true, if_false]
    congr 1
    rw [filterStage, filterStage, filterStage, List.filter_filter, List.filter_filter]
    apply List.filter_congr
    intro b _
    simp only [PW.conjPred, hkw, Bool.false_eq_true, if_false, Bool.and_true]
    cases hdate : PW.dateActive df dt <;>
      cases hcls : PW.classActive cls <;>
        cases hbud : PW.budgetActive bmin bmax <;>
          simp [Bool.and_comm, Bool.and_left_comm, Bool.and_assoc]
  | true =>
    simp only [PW.filter_bids, hchk, hkw, if_true, Bool.false_eq_true, if_false]
    rw [filterStage, filterStage, filterStage, List.filter_filter, List.filter_filter]
    have hany : ∀ Q : PW.PBid → Bool,
        ((bids.filter Q).any (fun b => b.title.isNone)) = false := by
      intro Q
      rw [Bool.eq_false_iff]
      intro hx
      rw [List.any_eq_true] at hx
      obtain ⟨b, hb, hp⟩ := hx
      exact (htitle hkw b (List.mem_filter.mp hb).1) (Option.isNone_iff_eq_none.mp hp)
    rw [hany]
    simp only [Bool.false_eq_true, if_false]
    congr 1
    rw [List.filter_filter]
    apply List.filter_congr
    intro b _
    simp only [PW.conjPred, hkw, if_true]
    cases hdate : PW.dateActive df dt <;>
      cases hcls : PW.classActive cls <;>
        cases hbud : PW.budgetActive bmin bmax <;>
          simp [Bool.and_comm, Bool.and_left_comm, Bool.and_assoc]

/-- Claim C6: `filter_bids` applies the supplied filters independently
and conjunctively (AND) — its output is a single `List.filter` by the
conjunction of the four predicates, where an absent filter parameter
contributes the constant-true predicate, i.e. imposes no constraint —
and on the three records (budget 50000 Goods, 500000 Goods,
500000 Works), filtering with budget_min 100000 and classifications
["Goods"] yields exactly the second record.  (The hypotheses exclude
the two exception paths of the Python code: the budget summary print
raising TypeError when budget_min is 0 and budget_max is None, and the
keyword filter raising AttributeError on a None title.) -/
theorem filter_bids_conjunctive :
    (∀ (pd : Option String → Option Int) (bids : List PW.PBid)
       (df dt : Option String) (cls : Option (List String))
       (bmin bmax : Option ℚ) (kw : Option (List String)),
        ¬(bmin = some 0 ∧ bmax = none) →
        (PW.kwActive kw = true → ∀ b ∈ bids, b.title ≠ none) →
        PW.filter_bids pd bids df dt cls bmin bmax kw
          = Except.ok (bids.filter (PW.conjPred pd df dt cls bmin bmax kw)))
    ∧ (∀ pd : Option String → Option Int,
        PW.filter_bids pd [Demo.fBid1, Demo.fBid2, Demo.fBid3] none none
          (some ["Goods"]) (some 100000) none none = Except.ok [Demo.fBid2]) := by
  refine ⟨filter_bids_eq_filter_conj, ?_⟩
  intro pd
  rfl

/-- Witness for the C6 theorem at the concrete three-record instance. -/
theorem filter_bids_conjunctive_witness :
    ¬((some (100000 : ℚ) : Option ℚ) = some 0 ∧ (none : Option ℚ) = none)
    ∧ PW.filter_bids (fun _ => none) [Demo.fBid1, Demo.fBid2, Demo.fBid3] none none
        (some ["Goods"]) (some 100000) none none
      = Except.ok ([Demo.fBid1, Demo.fBid2, Demo.fBid3].filter
          (PW.conjPred (fun _ => none) none none (some ["Goods"]) (some 100000) none none)) :=
  ⟨by simp, filter_bids_conjunctive.1 (fun _ => none) [Demo.fBid1, Demo.fBid2, Demo.fBid3]
    none none (some ["Goods"]) (some 100000) none none (by simp)
    (fun h => absurd h Bool.false_ne_true)⟩

/-- Counterexample for C7: in `philgeps_scraper.py`, `run_daily_scrape`
accepts a `filters` argument but never applies it to the record set —
it is only forwarded to the report as `filters_applied` (line 795).
Concretely: with a supplied classification filter ["Goods"] and two
scraped records of classifications Goods and Works, both records are
detail-processed and handed to the persistence phase (the save oracle
counts 2 new records), and the returned result is identical to the run
without any filters. -/
theorem run_daily_scrape_ignores_filters :
    Demo.cexFilters.classifications = some ["Goods"]
    ∧ Orc.dictGet Demo.cexBidWorks "classification" = some "Works"
    ∧ (Orc.run_daily_scrape (Except.ok ([Demo.cexBidGoods, Demo.cexBidWorks], []))
        (fun _ => Orc.DetailOutcome.noDetail) Demo.countSave (some Demo.cexFilters) true).1.new_bids
      = some 2
    ∧ (Orc.run_daily_scrape (Except.ok ([Demo.cexBidGoods, Demo.cexBidWorks], []))
        (fun _ => Orc.DetailOutcome.noDetail) Demo.countSave (some Demo.cexFilters) true)
      = (Orc.run_daily_scrape (Except.ok ([Demo.cexBidGoods, Demo.cexBidWorks], []))
          (fun _ => Orc.DetailOutcome.noDetail) Demo.countSave none true) :=
  ⟨rfl, rfl, rfl, rfl⟩

/-- Amended C7: in the playwright variant
(`philgeps_scraper_playwright.py`), a supplied `filters` argument is
applied by `filter_bids` to the scraped record set between phase 1 and
phase 2, and the phase-2/persist loop iterates exactly the filtered
list, so only records satisfying the filters are detail-enriched and
persisted (an empty filter output short-circuits to a run that
processes nothing); each processed record satisfies the filter
conjunction.  The scrapling variant (`philgeps_scraper.py`) accepts
`filters` for report metadata only and enriches/persists the full
record set — see the counterexample. -/
theorem pw_run_daily_scrape_applies_filters :
    (∀ (bids : List PW.PBid) (pd : Option String → Option Int)
       (F : PW.FilterArgs) (fl : List PW.PBid) (fd : Bool),
        bids ≠ [] →
        PW.filter_bids pd bids F.date_from F.date_to F.classifications
            F.budget_min F.budget_max F.keywords = Except.ok fl →
        fl ≠ [] →
        (PW.run_daily_scrape (Except.ok bids) pd (some F) fd).processed = fl
        ∧ (PW.run_daily_scrape (Except.ok bids) pd (some F) fd).success = true)
    ∧ (∀ (bids : List PW.PBid) (pd : Option String → Option Int)
         (F : PW.FilterArgs) (fd : Bool),
        bids ≠ [] →
        PW.filter_bids pd bids F.date_from F.date_to F.classifications
            F.budget_min F.budget_max F.keywords = Except.ok [] →
        (PW.run_daily_scrape (Except.ok bids) pd (some F) fd).processed = []
        ∧ (PW.run_daily_scrape (Except.ok bids) pd (some F) fd).filtered_out = true)
    ∧ (∀ (bids : List PW.PBid) (pd : Option String → Option Int)
         (F : PW.FilterArgs) (fl : List PW.PBid),
        ¬(F.budget_min = some 0 ∧ F.budget_max = none) →
        (PW.kwActive F.keywords = true → ∀ b ∈ bids, b.title ≠ none) →
        PW.filter_bids pd bids F.date_from F.date_to F.classifications
            F.budget_min F.budget_max F.keywords = Except.ok fl →
        ∀ b ∈ fl, PW.conjPred pd F.date_from F.date_to F.classifications
            F.budget_min F.budget_max F.keywords b = true) := by
  refine ⟨?_, ?_, ?_⟩
  · intro bids pd F fl fd hne hfb hfl
    have hemp : bids.isEmpty = false := by simp [List.isEmpty_iff, hne]
    have hflemp : fl.isEmpty = false := by simp [List.isEmpty_iff, hfl]
    constructor <;> simp [PW.run_daily_scrape, hemp, hfb, hflemp]
  · intro bids pd F fd hne hfb
    have hemp : bids.isEmpty = false := by simp [List.isEmpty_iff, hne]
    constructor <;> simp [PW.run_daily_scrape, hemp, hfb]
  · intro bids pd F fl hfmt htitle hfb
    have hconj := filter_bids_eq_filter_conj pd bids F.date_from F.date_to
      F.classifications F.budget_min F.budget_max F.keywords hfmt htitle
    rw [hfb] at hconj
    have hfl : fl = bids.filter (PW.conjPred pd F.date_from F.date_to
        F.classifications F.budget_min F.budget_max F.keywords) := by
      injection hconj
    intro b hb
    rw [hfl] at hb
    exact (List.mem_filter.mp hb).2

/-- Witness for the amended C7 theorem: the three-record demo filtered
down to the single Goods record with budget 500000, which is the whole
processed set of the run. -/
theorem pw_run_daily_scrape_applies_filters_witness :
    ([Demo.fBid1, Demo.fBid2, Demo.fBid3] ≠ ([] : List PW.PBid))
    ∧ (PW.run_daily_scrape (Except.ok [Demo.fBid1, Demo.fBid2, Demo.fBid3]) (fun _ => none)
        (some { classifications := some ["Goods"], budget_min := some 100000 }) true).processed
      = [Demo.fBid2] :=
  ⟨by simp, (pw_run_daily_scrape_applies_filters.1 [Demo.fBid1, Demo.fBid2, Demo.fBid3]
    (fun _ => none) { classifications := some ["Goods"], budget_min := some 100000 }
    [Demo.fBid2] true (by simp) rfl (by simp)).1⟩

/-- Claim C3: the phase-2 loop of `run_daily_scrape` processes every
bid; for each bid whose detail fetch fails (`scrape_bid_detail`
returned `None`, or the iteration raised), the record passed onward is
the unchanged summary dict — so it carries exactly the summary fields
and none of the detail fields — and exactly one error entry
(`DetailFetchError` resp. `ProcessingError`) is recorded for it; the
recorded entries end up in the run statistics; and the run result
depends on the save phase only through its value on the phase-2 output
list, i.e. exactly that merged list is persisted. -/
theorem detail_failure_isolation
    (detailOf : Orc.Dict → Orc.DetailOutcome) (bids : List Orc.Dict) :
    ((Orc.phase2 detailOf bids).1.length = bids.length)
    ∧ ((Orc.phase2 detailOf bids).1 = bids.map (fun b => (Orc.processBid detailOf b).1))
    ∧ (∀ b ∈ bids, (detailOf b).isFailure = true →
        (Orc.processBid detailOf b).1 = b
        ∧ (Orc.processBid detailOf b).2.length = 1
        ∧ ((Orc.processBid detailOf b).2.map Prod.fst = ["DetailFetchError"]
            ∨ (Orc.processBid detailOf b).2.map Prod.fst = ["ProcessingError"]))
    ∧ (∀ (errs1 : List Orc.ErrEntry) (filters : Option PW.FilterArgs) save
         (counts : DB.SaveCounts) (errs3 : List Orc.ErrEntry),
        bids ≠ [] →
        save ((Orc.phase2 detailOf bids).1) = Except.ok (counts, errs3) →
        (Orc.run_daily_scrape (Except.ok (bids, errs1)) detailOf save filters true).2
          = errs1 ++ ((Orc.phase2 detailOf bids).2 ++ errs3))
    ∧ (∀ (errs1 : List Orc.ErrEntry) (filters : Option PW.FilterArgs) save₁ save₂,
        save₁ ((Orc.phase2 detailOf bids).1) = save₂ ((Orc.phase2 detailOf bids).1) →
        Orc.run_daily_scrape (Except.ok (bids, errs1)) detailOf save₁ filters true
          = Orc.run_daily_scrape (Except.ok (bids, errs1)) detailOf save₂ filters true) := by
  refine ⟨by simp [Orc.phase2], by simp [Orc.phase2], ?_, ?_, ?_⟩
  · intro b _ hfail
    cases hdet : detailOf b with
    | ok d =>
      rw [hdet] at hfail
      exact absurd hfail (by simp [Orc.DetailOutcome.isFailure])
    | noDetail =>
      refine ⟨?_, ?_, Or.inl ?_⟩ <;> simp [Orc.processBid, hdet]
    | raised m =>
      refine ⟨?_, ?_, Or.inr ?_⟩ <;> simp [Orc.processBid, hdet]
  · intro errs1 filters save counts errs3 hne hsave
    have hempty : bids.isEmpty = false := by
      simp [List.isEmpty_iff, hne]
    simp [Orc.run_daily_scrape, hempty, hsave, List.append_assoc]
  · intro errs1 filters save₁ save₂ hsx
    by_cases hbe : bids.isEmpty
    · simp [Orc.run_daily_scrape, hbe]
    · simp only [Orc.run_daily_scrape, hbe, Bool.false_eq_true, if_false, if_true]
      rw [hsx]

/-- Witness for the C3 theorem: a failing detail fetch on a
single-record list leaves the summary record unchanged and records one
detail-fetch error. -/
theorem detail_failure_isolation_witness :
    (Demo.wBid ∈ [Demo.wBid])
    ∧ (((fun _ => Orc.DetailOutcome.noDetail) Demo.wBid).isFailure = true)
    ∧ (Orc.processBid (fun _ => Orc.DetailOutcome.noDetail) Demo.wBid).1 = Demo.wBid :=
  ⟨by simp, rfl,
    ((detail_failure_isolation (fun _ => Orc.DetailOutcome.noDetail) [Demo.wBid]).2.2.1
      Demo.wBid (by simp) rfl).1⟩
